import Mathlib

/-!
Verification of the response-blob parsing and aggregation engine of the
ollama observability proxy (`resources/app.py`).

The Python helpers `_safe_json_loads`, `_extract_last_json_from_blob`,
`_aggregate_completion_from_stream`, `_extract_first_completion_text` and
`_extract_usage_from_data`, together with the request-fact derivation in the
`chat_completions` and `dumb_proxy` handlers, are shallowly embedded below.

Modelling conventions:
* JSON values (and the Python values the helpers manipulate) are the
  inductive type `JVal`.  Python `None` and JSON `null` are both `JVal.null`.
* Operations that can raise a Python exception (`.get` on a non-dict,
  indexing an empty list, `+` on incompatible types, ...) return
  `Except Unit _`; `.error ()` means "raises".  Total Python code is
  embedded as total Lean functions.
* Text is `List Char`.  `pySplitlines` / `pyStrip` model Python's
  `str.splitlines` / `str.strip` (the rarer Unicode whitespace code points
  accepted by Python but absent from every payload in this development are
  omitted and noted at the definitions).
* `json_parse` models strict `json.loads` for the JSON fragment exercised
  here: objects, arrays, strings with the common escapes, integer numerals,
  `true`/`false`/`null`.  Fractional/exponent numerals and `\uXXXX` escapes
  are not modelled (no claim involves them); on such input the model parser
  fails where Python would succeed, which only makes a line be skipped.
  Python numbers are modelled as `Int`.
-/

/-- A JSON/Python value: null, booleans, (integer) numbers, strings,
arrays and objects (insertion-ordered key/value lists, as Python dicts). -/
inductive JVal where
  | null : JVal
  | bool : Bool → JVal
  | num : Int → JVal
  | str : String → JVal
  | arr : List JVal → JVal
  | obj : List (String × JVal) → JVal

/-- Python truthiness of a value (`if x:`). -/
def truthy : JVal → Bool
  | .null => false
  | .bool b => b
  | .num n => n != 0
  | .str s => !s.isEmpty
  | .arr xs => !xs.isEmpty
  | .obj kvs => !kvs.isEmpty

/-- Is the value Python `None` / JSON `null`? -/
def isNull : JVal → Bool
  | .null => true
  | _ => false

/-- First-match association lookup, the dict lookup of the model
(parser-built objects are duplicate-free, as Python dicts are). -/
def jlookup (k : String) : List (String × JVal) → Option JVal
  | [] => none
  | (k', v) :: rest => if k' = k then some v else jlookup k rest

/-- Insert a key, replacing in place when the key is already present —
Python dict insertion semantics, used by the object parser. -/
def insertKV : List (String × JVal) → String → JVal → List (String × JVal)
  | [], k, v => [(k, v)]
  | (k', v') :: rest, k, v =>
    if k' = k then (k, v) :: rest else (k', v') :: insertKV rest k v

/-- Python `v.get(k, dflt)`: a dict returns the stored value or the default;
any non-dict raises `AttributeError`. -/
def dictGet (v : JVal) (k : String) (dflt : JVal) : Except Unit JVal :=
  match v with
  | .obj kvs => .ok ((jlookup k kvs).getD dflt)
  | _ => .error ()

/-- Python `v[0]`: first element of a list (IndexError when empty), first
character of a string (strings are subscriptable), error otherwise
(TypeError / KeyError for dicts, whose keys here are strings). -/
def pyIndex0 : JVal → Except Unit JVal
  | .arr (x :: _) => .ok x
  | .str s =>
    match s.data with
    | c :: _ => .ok (.str (String.mk [c]))
    | [] => .error ()
  | _ => .error ()

/-- Python `a + b` on the values occurring here: numbers add (booleans count
as 0/1 as in Python), strings and lists concatenate; any other combination
raises `TypeError`. -/
def pyAdd : JVal → JVal → Except Unit JVal
  | .num a, .num b => .ok (.num (a + b))
  | .bool a, .num b => .ok (.num ((if a then 1 else 0) + b))
  | .num a, .bool b => .ok (.num (a + (if b then 1 else 0)))
  | .bool a, .bool b => .ok (.num ((if a then (1 : Int) else 0) + (if b then 1 else 0)))
  | .str a, .str b => .ok (.str (a ++ b))
  | .arr a, .arr b => .ok (.arr (a ++ b))
  | _, _ => .error ()

/-- Python `x == "assistant"`: true exactly on the string `"assistant"`
(cross-type `==` on JSON values is `False`). -/
def isAssistant : JVal → Bool
  | .str s => s = "assistant"
  | _ => false

/-! ## Text utilities (Python string methods) -/

/-- Line-break characters of Python `str.splitlines`. -/
def isLineBreak (c : Char) : Bool :=
  c == '\n' || c == '\r' || c == '\x0b' || c == '\x0c' ||
  c == '\x1c' || c == '\x1d' || c == '\x1e' || c == '\x85' ||
  c == ' ' || c == ' '

/-- Whitespace characters stripped by Python `str.strip()` (the ASCII and
common Unicode ones; rarer Unicode space code points are omitted — none
occurs in any payload considered here). -/
def isPyWs (c : Char) : Bool :=
  c == ' ' || c == '\t' || c == '\n' || c == '\r' || c == '\x0b' || c == '\x0c' ||
  c == '\x1c' || c == '\x1d' || c == '\x1e' || c == '\x1f' || c == '\x85' ||
  c == '\xa0' || c == ' ' || c == ' '

/-- Worker for `pySplitlines`, carrying the reversed current line. -/
def splitlinesAux : List Char → List Char → List (List Char)
  | [], acc => if acc.isEmpty then [] else [acc.reverse]
  | '\r' :: '\n' :: rest, acc => acc.reverse :: splitlinesAux rest []
  | c :: rest, acc =>
    if isLineBreak c then acc.reverse :: splitlinesAux rest []
    else splitlinesAux rest (c :: acc)

/-- Python `s.splitlines()`: split at line-break characters (with `\r\n`
counting as one break); a trailing break produces no extra empty line. -/
def pySplitlines (cs : List Char) : List (List Char) :=
  splitlinesAux cs []

/-- Python `s.strip()`: drop leading and trailing whitespace. -/
def pyStrip (cs : List Char) : List Char :=
  ((cs.dropWhile isPyWs).reverse.dropWhile isPyWs).reverse

/-- Index of the first occurrence of `pat` as a contiguous substring of
`hay` (`none` when absent). -/
def findSub : List Char → List Char → Option Nat
  | hay, pat =>
    if pat.isPrefixOf hay then some 0
    else
      match hay with
      | [] => none
      | _ :: rest => (findSub rest pat).map Nat.succ

/-- Python `pat in hay` for strings: substring containment. -/
def containsSub (hay pat : List Char) : Bool :=
  (findSub hay pat).isSome

/-- Python `hay.split(pat, 1)[-1]`: everything after the first occurrence of
`pat`; the whole string when `pat` does not occur (split returns `[hay]`). -/
def splitAfterFirst (hay pat : List Char) : List Char :=
  match findSub hay pat with
  | some i => hay.drop (i + pat.length)
  | none => hay

/-! ## Strict JSON parsing (`json.loads`) -/

/-- Whitespace accepted between tokens by strict `json.loads`. -/
def isJsonWs (c : Char) : Bool :=
  c == ' ' || c == '\t' || c == '\n' || c == '\r'

/-- Drop leading JSON whitespace. -/
def skipWs : List Char → List Char
  | [] => []
  | c :: cs => if isJsonWs c then skipWs cs else c :: cs

/-- ASCII decimal digit? -/
def isDigitCh (c : Char) : Bool :=
  '0' ≤ c && c ≤ '9'

/-- Split a leading run of digits from the rest. -/
def takeDigits : List Char → List Char × List Char
  | [] => ([], [])
  | c :: cs =>
    if isDigitCh c then
      let p := takeDigits cs
      (c :: p.1, p.2)
    else ([], c :: cs)

/-- Decimal value of a digit run. -/
def digitsToNatAux : Nat → List Char → Nat
  | acc, [] => acc
  | acc, c :: cs => digitsToNatAux (acc * 10 + (c.toNat - '0'.toNat)) cs

/-- The character denoted by a JSON string escape `\e` (the `\uXXXX` escape
is not modelled; no claim involves it). -/
def escChar : Char → Option Char
  | '"' => some '"'
  | '\\' => some '\\'
  | '/' => some '/'
  | 'b' => some '\x08'
  | 'f' => some '\x0c'
  | 'n' => some '\n'
  | 'r' => some '\r'
  | 't' => some '\t'
  | _ => none

/-- Parse the body of a JSON string literal (after the opening quote) up to
and including the closing quote; unescaped control characters are invalid
in strict mode. -/
def parseStrBody : List Char → Option (List Char × List Char)
  | [] => none
  | '"' :: rest => some ([], rest)
  | ['\\'] => none
  | '\\' :: e :: rest =>
    match escChar e with
    | some c => (parseStrBody rest).map (fun p => (c :: p.1, p.2))
    | none => none
  | c :: rest =>
    if c.toNat < 32 then none
    else (parseStrBody rest).map (fun p => (c :: p.1, p.2))

/-- Parse a JSON integer numeral (strict grammar: optional `-`, no leading
zeros).  Fractional/exponent numerals are not modelled: the parse fails
where Python would produce a float (no claim involves non-integer
numbers). -/
def parseNumber (cs : List Char) : Option (JVal × List Char) :=
  let p := match cs with
    | '-' :: r => (true, r)
    | _ => (false, cs)
  match takeDigits p.2 with
  | ([], _) => none
  | (ds, rest) =>
    if ds.length > 1 && ds.headD '0' == '0' then none
    else
      match rest with
      | '.' :: _ => none
      | 'e' :: _ => none
      | 'E' :: _ => none
      | _ =>
        let n : Int := digitsToNatAux 0 ds
        some (.num (if p.1 then -n else n), rest)

mutual

/-- Parse one JSON value (fuelled recursion; the fuel passed by `json_parse`
is large enough for any input, since every recursive call follows the
consumption of at least one character within the last three calls). -/
def parseVal : Nat → List Char → Option (JVal × List Char)
  | 0, _ => none
  | fuel + 1, cs =>
    match skipWs cs with
    | [] => none
    | '{' :: rest => parseObjBody fuel rest
    | '[' :: rest => parseArrBody fuel rest
    | '"' :: rest => (parseStrBody rest).map (fun p => (.str (String.mk p.1), p.2))
    | 't' :: 'r' :: 'u' :: 'e' :: rest => some (.bool true, rest)
    | 'f' :: 'a' :: 'l' :: 's' :: 'e' :: rest => some (.bool false, rest)
    | 'n' :: 'u' :: 'l' :: 'l' :: rest => some (.null, rest)
    | cs' => parseNumber cs'

/-- Parse an object body (after `{`). -/
def parseObjBody : Nat → List Char → Option (JVal × List Char)
  | 0, _ => none
  | fuel + 1, cs =>
    match skipWs cs with
    | '}' :: rest => some (.obj [], rest)
    | cs' => parseMembers fuel cs' []

/-- Parse the members of a non-empty object body. -/
def parseMembers : Nat → List Char → List (String × JVal) → Option (JVal × List Char)
  | 0, _, _ => none
  | fuel + 1, cs, acc =>
    match skipWs cs with
    | '"' :: r =>
      match parseStrBody r with
      | none => none
      | some (kcs, r2) =>
        match skipWs r2 with
        | ':' :: r3 =>
          match parseVal fuel r3 with
          | none => none
          | some (v, r4) =>
            match skipWs r4 with
            | ',' :: r5 => parseMembers fuel r5 (insertKV acc (String.mk kcs) v)
            | '}' :: r5 => some (.obj (insertKV acc (String.mk kcs) v), r5)
            | _ => none
        | _ => none
    | _ => none

/-- Parse an array body (after `[`). -/
def parseArrBody : Nat → List Char → Option (JVal × List Char)
  | 0, _ => none
  | fuel + 1, cs =>
    match skipWs cs with
    | ']' :: rest => some (.arr [], rest)
    | cs' => parseItems fuel cs' []

/-- Parse the items of a non-empty array body. -/
def parseItems : Nat → List Char → List JVal → Option (JVal × List Char)
  | 0, _, _ => none
  | fuel + 1, cs, acc =>
    match parseVal fuel cs with
    | none => none
    | some (v, r) =>
      match skipWs r with
      | ',' :: r2 => parseItems fuel r2 (acc ++ [v])
      | ']' :: r2 => some (.arr (acc ++ [v]), r2)
      | _ => none

end

/-- Strict `json.loads` on text: one JSON value followed only by
whitespace; `none` on any parse failure. -/
def json_parse (cs : List Char) : Option JVal :=
  match parseVal (3 * cs.length + 4) cs with
  | some (v, rest) => if (skipWs rest).isEmpty then some v else none
  | none => none

/-! ## The embedded helpers of `resources/app.py` -/

/-- `_safe_json_loads` (app.py:55-60): try to parse JSON, return `{}` on
failure. -/
def safe_json_loads (cs : List Char) : JVal :=
  (json_parse cs).getD (.obj [])

/-- The default delimiter of `_extract_last_json_from_blob`
(app.py:62): the string `"stringValue:"`. -/
def stringValueMarker : List Char :=
  ['s', 't', 'r', 'i', 'n', 'g', 'V', 'a', 'l', 'u', 'e', ':']

/-- The non-empty stripped lines of a blob (app.py:68 and app.py:81):
`[ln.strip() for ln in blob.splitlines() if ln.strip()]`. -/
def strippedLines (blob : List Char) : List (List Char) :=
  ((pySplitlines blob).map pyStrip).filter (fun l => !l.isEmpty)

/-- The candidate text a line contributes (app.py:70 and app.py:82):
`ln.split(pfx, 1)[-1] if (pfx and pfx in ln) else ln`. -/
def lineCandidate (pfx ln : List Char) : List Char :=
  if !pfx.isEmpty && containsSub ln pfx then splitAfterFirst ln pfx else ln

/-- The reverse scan of `_extract_last_json_from_blob` (app.py:69-74): the
first line (of the already-reversed list) whose candidate strictly parses
to a truthy value wins; `{}` when none does. -/
def lastJsonScan (pfx : List Char) : List (List Char) → JVal
  | [] => .obj []
  | line :: rest =>
    let data := safe_json_loads (pyStrip (lineCandidate pfx line))
    if truthy data then data else lastJsonScan pfx rest

/-- The line list `_extract_last_json_from_blob` scans (app.py:68):
the non-empty stripped lines, `or [blob]` when there are none. -/
def blobScanLines (blob : List Char) : List (List Char) :=
  let lines := strippedLines blob
  if lines.isEmpty then [blob] else lines

/-- `_extract_last_json_from_blob` (app.py:62-74). -/
def extract_last_json_from_blob (blob : List Char) (pfx : List Char) : JVal :=
  if blob.isEmpty then .obj []
  else lastJsonScan pfx (blobScanLines blob).reverse

/-- One iteration of the loop of `_aggregate_completion_from_stream`
(app.py:81-94): `some piece` when the line appends a fragment, `none` when
it is skipped, `.error ()` when the Python code raises. -/
def aggLinePiece (pfx ln : List Char) : Except Unit (Option JVal) := do
  let obj := safe_json_loads (lineCandidate pfx ln)
  if !truthy obj then
    return none
  else
    let msg ← dictGet obj "message" (.obj [])
    let role ← dictGet msg "role" .null
    if isAssistant role then
      let c ← dictGet msg "content" (.str "")
      return some c
    else
      let cs ← dictGet obj "choices" (.arr [.obj []])
      let c0 ← pyIndex0 cs
      let d ← dictGet c0 "delta" (.obj [])
      let content ← dictGet d "content" .null
      return (if truthy content then some content else none)

/-- The `pieces` list accumulated by `_aggregate_completion_from_stream`
(app.py:80-94), in line order; the first raising line aborts. -/
def aggPieces (pfx : List Char) : List (List Char) → Except Unit (List JVal)
  | [] => .ok []
  | ln :: rest => do
    let p ← aggLinePiece pfx ln
    let tail ← aggPieces pfx rest
    match p with
    | none => return tail
    | some v => return (v :: tail)

/-- Python `"".join(pieces)` (app.py:95): concatenates, raising `TypeError`
when a piece is not a string. -/
def joinPieces : List JVal → Except Unit String
  | [] => .ok ""
  | .str s :: rest => do
    let t ← joinPieces rest
    return s ++ t
  | _ => .error ()

/-- `_aggregate_completion_from_stream` (app.py:76-95). -/
def aggregate_completion_from_stream (blob : List Char) (pfx : List Char) :
    Except Unit String :=
  if blob.isEmpty then .ok ""
  else do
    let ps ← aggPieces pfx (strippedLines blob)
    joinPieces ps

/-- `_extract_first_completion_text` (app.py:97-103).  The `try` branch
reads `choices[0].message.content`; on any exception the `except` branch
reads `choices[0].text` — and may itself raise (which propagates). -/
def extract_first_completion_text (data : JVal) : Except Unit JVal :=
  if !truthy data then .ok (.str "")
  else
    let attempt : Except Unit JVal := do
      let cs ← dictGet data "choices" (.arr [.obj []])
      let c0 ← pyIndex0 cs
      let msg ← dictGet c0 "message" (.obj [])
      dictGet msg "content" (.str "")
    match attempt with
    | .ok v => .ok v
    | .error _ => do
      let cs ← dictGet data "choices" (.arr [.obj []])
      let c0 ← pyIndex0 cs
      dictGet c0 "text" (.str "")

/-- `_extract_usage_from_data` (app.py:105-116): `(None, None, None)` on a
falsy payload; a truthy `usage` value is read directly (raising when it is
not a dict); otherwise the native-dialect fields `prompt_eval_count` /
`eval_count` are used, with the total computed as their sum only when both
are present.  A truthy non-dict payload raises at `data.get`. -/
def extract_usage_from_data (data : JVal) : Except Unit (JVal × JVal × JVal) :=
  if !truthy data then .ok (.null, .null, .null)
  else
    match data with
    | .obj kvs =>
      let usage := (jlookup "usage" kvs).getD (.obj [])
      if truthy usage then do
        let p ← dictGet usage "prompt_tokens" .null
        let c ← dictGet usage "completion_tokens" .null
        let t ← dictGet usage "total_tokens" .null
        return (p, c, t)
      else if (jlookup "prompt_eval_count" kvs).isSome ||
          (jlookup "eval_count" kvs).isSome then
        let p := (jlookup "prompt_eval_count" kvs).getD .null
        let c := (jlookup "eval_count" kvs).getD .null
        if !isNull p && !isNull c then do
          let t ← pyAdd p c
          return (p, c, t)
        else .ok (p, c, .null)
      else .ok (.null, .null, .null)
    | _ => .error ()

/-! ## The request-fact derivation of the two handlers -/

/-- The temperature the `chat_completions` handler derives (app.py:122-130):
`payload.pop("options", None) or {}`, `payload.pop("format", None)`, then
`payload.get("temperature") or dify_options.get("temperature")`.  A
non-dict body raises at the first `pop`. -/
def chat_request_temperature (payload : JVal) : Except Unit JVal :=
  match payload with
  | .obj kvs0 =>
    let opts0 := jlookup "options" kvs0
    let kvs1 := kvs0.filter (fun p => p.1 != "options")
    let dify_options := match opts0 with
      | some v => if truthy v then v else .obj []
      | none => .obj []
    let kvs := kvs1.filter (fun p => p.1 != "format")
    let t := (jlookup "temperature" kvs).getD .null
    if truthy t then .ok t
    else dictGet dify_options "temperature" .null
  | _ => .error ()

/-- The temperature the `dumb_proxy` handler derives (app.py:175):
`req_data.get("temperature") or req_data.get("options", {}).get("temperature")`. -/
def proxy_request_temperature (req_data : JVal) : Except Unit JVal := do
  let t ← dictGet req_data "temperature" .null
  if truthy t then return t
  else
    let opts ← dictGet req_data "options" (.obj [])
    dictGet opts "temperature" .null

/-- The best-effort request payload the `dumb_proxy` handler recovers for
tracing (app.py:172): `_extract_last_json_from_blob(body_str)` — the call
uses the *default* delimiter `"stringValue:"` of app.py:62. -/
def dumbProxyReqData (body : List Char) : JVal :=
  extract_last_json_from_blob body stringValueMarker

/-! ## The proxied response of `dumb_proxy` -/

/-- A backend HTTP response as the handler sees it: body bytes, status
code, headers. -/
structure BackendResponse where
  content : List Nat
  status_code : Nat
  headers : List (String × String)

/-- The header filter of app.py:222: keep every header whose lower-cased
name is neither `content-encoding` nor `transfer-encoding`. -/
def sanitizeHeaders (hs : List (String × String)) : List (String × String) :=
  hs.filter (fun kv =>
    kv.1.toLower != "content-encoding" && kv.1.toLower != "transfer-encoding")

/-- The response `dumb_proxy` returns (app.py:224-229): the backend's
content and status code unchanged, with the sanitized headers. -/
def dumbProxyResponse (r : BackendResponse) : BackendResponse :=
  { content := r.content
    status_code := r.status_code
    headers := sanitizeHeaders r.headers }

/-- The native-dialect stream event `{"message": {"role": "assistant",
"content": c}}`, as a value. -/
def nativeEvent (c : String) : JVal :=
  .obj [("message", .obj [("role", .str "assistant"), ("content", .str c)])]

/-- Concatenation of a list of strings with no separator (`"".join`). -/
def strConcat : List String → String
  | [] => ""
  | s :: rest => s ++ strConcat rest

/-! ## Helper lemmas -/

/-- Truthiness of an object is non-emptiness (evaluation lemma). -/
theorem truthy_obj (kvs : List (String × JVal)) : truthy (.obj kvs) = !kvs.isEmpty :=
  rfl

/-- A successful lookup means the dict is non-empty (hence truthy). -/
theorem jlookup_ne_nil {k : String} {kvs : List (String × JVal)} {v : JVal}
    (h : jlookup k kvs = some v) : kvs.isEmpty = false := by
  cases kvs with
  | nil => exact absurd h (by simp [jlookup])
  | cons hd tl => rfl

/-- Removing the entries of a different key does not change a lookup. -/
theorem jlookup_filter_ne (k k' : String) (h : k' ≠ k) (kvs : List (String × JVal)) :
    jlookup k (kvs.filter (fun p => p.1 != k')) = jlookup k kvs := by
  induction kvs with
  | nil => rfl
  | cons hd tl ih =>
    obtain ⟨k0, v0⟩ := hd
    simp only [List.filter_cons]
    by_cases hk : k0 = k'
    · subst hk
      have hne : ¬ (k0 = k) := h
      simp [jlookup, hne, ih]
    · simp [jlookup, hk, ih]

/-! ## Claim C1 -/

/-- C1: the claim states that for every input string — including malformed,
non-object, or schema-violating payloads such as an empty `choices` array —
`aggregate_completion` and `first_completion_text` return a value and never
raise.  The code violates this: `_extract_first_completion_text` raises
`IndexError` on `\x7b"choices": []\x7d` (the `except` branch indexes
`choices[0]` again), and `_aggregate_completion_from_stream` raises
`AttributeError` on the blob `[1]` (a truthy non-dict decode reaches
`obj.get`).  This theorem evaluates the embedded code at both failing
inputs. -/
theorem C1_extractors_raise :
    extract_first_completion_text (.obj [("choices", .arr [])]) = .error ()
    ∧ aggregate_completion_from_stream ("[1]").data [] = .error () :=
  ⟨rfl, rfl⟩

/-! ## Claim C2 -/

/-- C2: the claim states that `parse_last_json` always returns a mapping,
treating a line that decodes to a non-object JSON value as absent.  The
code violates this: a truthy non-object decode (here the array `[1]`) is
returned as-is, because the success test is Python truthiness, not being a
mapping.  This theorem evaluates the embedded code at the failing blob
`[1]` (with the default delimiter, as `dumb_proxy` calls it). -/
theorem C2_blob_returns_array :
    extract_last_json_from_blob ("[1]").data stringValueMarker = .arr [.num 1] :=
  rfl

/-! ## Claim C3 -/

/-- C3 counterexample: the claim states that on a payload where
`choices[0]` is a mapping, `message` is absent and `text` is present —
here `\x7b"choices": [\x7b"text": "t"\x7d]\x7d` — `first_completion_text`
returns the `text` value `"t"`.  The embedded code returns `""` instead:
with `message` absent the defaulted `\x7b\x7d.get("content", "")` succeeds,
so the `except`-driven fallback to `text` is never reached. -/
theorem C3_counterexample :
    extract_first_completion_text (.obj [("choices", .arr [.obj [("text", .str "t")]])])
      = .ok (.str "")
    ∧ extract_first_completion_text (.obj [("choices", .arr [.obj [("text", .str "t")]])])
      ≠ .ok (.str "t") :=
  ⟨rfl, fun h => absurd (JVal.str.inj (Except.ok.inj h)) (by decide)⟩

/-- C3 (amended): on every payload where `choices[0]` is a mapping with
`message` absent, `first_completion_text` returns the empty string even
when `text` is present — the fallback to `choices[0].text` is reached only
when the `message` chain raises, never on mere absence. -/
theorem C3_text_ignored_when_message_absent
    (kvs ckvs : List (String × JVal)) (rest : List JVal) (t : JVal)
    (hc : jlookup "choices" kvs = some (.arr (.obj ckvs :: rest)))
    (hm : jlookup "message" ckvs = none)
    (ht : jlookup "text" ckvs = some t) :
    extract_first_completion_text (.obj kvs) = .ok (.str "") := by
  simp [extract_first_completion_text, truthy_obj, jlookup_ne_nil hc, dictGet, hc, hm,
    pyIndex0, Bind.bind, Except.bind, jlookup]

/-- C3 witness: the amended theorem applied at
`\x7b"choices": [\x7b"text": "t"\x7d]\x7d`. -/
theorem C3_witness :
    extract_first_completion_text (.obj [("choices", .arr [.obj [("text", .str "t")]])])
      = .ok (.str "") :=
  C3_text_ignored_when_message_absent _ [("text", .str "t")] [] (.str "t") rfl rfl rfl

/-! ## Claim C4 -/

/-- The payload `\x7b"usage": \x7b"prompt_tokens": 10,
"completion_tokens": 5\x7d\x7d` of the spec's own test vector. -/
def usagePayloadA : JVal :=
  .obj [("usage", .obj [("prompt_tokens", .num 10), ("completion_tokens", .num 5)])]

/-- C4 counterexample: the claim states that whenever prompt and completion
counts are present and the payload carries no total count, the returned
total is their sum, under both usage-reporting schemas.  Under the `usage`
schema the embedded code returns the three keys verbatim: on
`usagePayloadA` the total is `None`, not `15` — no sum is ever computed in
that branch. -/
theorem C4_counterexample :
    extract_usage_from_data usagePayloadA = .ok (.num 10, .num 5, .null)
    ∧ extract_usage_from_data usagePayloadA ≠ .ok (.num 10, .num 5, .num 15) :=
  ⟨rfl, fun h => JVal.noConfusion (congrArg (fun p => p.2.2) (Except.ok.inj h))⟩

/-- C4 (amended): the sum is computed only under the native-dialect schema:
on every payload whose `usage` value is absent or falsy and which carries
`prompt_eval_count` and `eval_count` as numbers `p` and `c`, the returned
total is `p + c`; under the `usage` schema the total is `total_tokens`
verbatim (absent when absent). -/
theorem C4_native_total_is_sum (kvs : List (String × JVal)) (p c : Int)
    (hu : truthy ((jlookup "usage" kvs).getD (.obj [])) = false)
    (hp : jlookup "prompt_eval_count" kvs = some (.num p))
    (hc : jlookup "eval_count" kvs = some (.num c)) :
    extract_usage_from_data (.obj kvs) = .ok (.num p, .num c, .num (p + c)) := by
  simp [extract_usage_from_data, truthy_obj, jlookup_ne_nil hp, hu, hp, hc, isNull, pyAdd,
    Bind.bind, Except.bind, Pure.pure, Except.pure]

/-- C4 witness: the amended theorem applied at
`\x7b"prompt_eval_count": 10, "eval_count": 5\x7d`. -/
theorem C4_witness :
    extract_usage_from_data (.obj [("prompt_eval_count", .num 10), ("eval_count", .num 5)])
      = .ok (.num 10, .num 5, .num 15) :=
  C4_native_total_is_sum _ 10 5 rfl rfl rfl

/-! ## Claim C5 -/

/-- C5 counterexample: the claim states that `usage_facts` returns
`(None, None, None)` on every payload containing neither a non-empty usage
*object* nor a native-dialect count field.  The payload
`\x7b"usage": 5\x7d` contains no usage object (its `usage` value is a
number) and no native field, yet the embedded code raises: `5` is truthy,
so the code calls `usage.get("prompt_tokens")` on a non-dict
(`AttributeError`). -/
theorem C5_counterexample :
    extract_usage_from_data (.obj [("usage", .num 5)]) = .error ()
    ∧ extract_usage_from_data (.obj [("usage", .num 5)]) ≠ .ok (.null, .null, .null) :=
  ⟨rfl, fun h => Except.noConfusion h⟩

/-- C5 (amended): `usage_facts` returns exactly `(10, 5, None)` on
`\x7b"usage": \x7b"prompt_tokens": 10, "completion_tokens": 5\x7d\x7d`,
exactly `(10, 5, 15)` on `\x7b"prompt_eval_count": 10,
"eval_count": 5\x7d`, and `(None, None, None)` on every payload whose
`usage` value is absent or falsy and which contains neither native-dialect
count field (a truthy non-mapping `usage` value instead raises). -/
theorem C5_usage_facts :
    extract_usage_from_data usagePayloadA = .ok (.num 10, .num 5, .null)
    ∧ extract_usage_from_data
        (.obj [("prompt_eval_count", .num 10), ("eval_count", .num 5)])
        = .ok (.num 10, .num 5, .num 15)
    ∧ ∀ kvs : List (String × JVal),
        truthy ((jlookup "usage" kvs).getD (.obj [])) = false →
        jlookup "prompt_eval_count" kvs = none →
        jlookup "eval_count" kvs = none →
        extract_usage_from_data (.obj kvs) = .ok (.null, .null, .null) := by
  refine ⟨rfl, rfl, fun kvs hu hp he => ?_⟩
  by_cases hk : kvs.isEmpty
  · simp [extract_usage_from_data, truthy_obj, hk]
  · simp [extract_usage_from_data, truthy_obj, hk, hu, hp, he]

/-- C5 witness: the universal part applied at `\x7b"foo": 1\x7d`. -/
theorem C5_witness :
    extract_usage_from_data (.obj [("foo", .num 1)]) = .ok (.null, .null, .null) :=
  C5_usage_facts.2.2 [("foo", .num 1)] rfl rfl rfl

/-! ## Claim C6 -/

/-- The payload `\x7b"temperature": 0, "options":
\x7b"temperature": 1\x7d\x7d`: top-level temperature present with value 0. -/
def tempPayload : JVal :=
  .obj [("temperature", .num 0), ("options", .obj [("temperature", .num 1)])]

/-- C6 counterexample: the claim states that a present top-level
`temperature` — including the value 0 — always wins over the one inside
`options`, in both handlers.  The embedded code chains the lookups with
Python `or`, so the falsy top-level value `0` falls through: both handlers
derive `1` (the `options` temperature), not `0`. -/
theorem C6_counterexample :
    chat_request_temperature tempPayload = .ok (.num 1)
    ∧ proxy_request_temperature tempPayload = .ok (.num 1)
    ∧ chat_request_temperature tempPayload ≠ .ok (.num 0) :=
  ⟨rfl, rfl, fun h => absurd (JVal.num.inj (Except.ok.inj h)) (by decide)⟩

/-- C6 (amended): the top-level `temperature` is used when it is present
and truthy (non-zero); a falsy top-level value (such as 0) falls back to
the temperature inside `options`.  The truthy case holds in both the
chat-completions handler and the generic proxy handler. -/
theorem C6_truthy_temperature_wins (kvs : List (String × JVal)) (t : JVal)
    (hlk : jlookup "temperature" kvs = some t) (htr : truthy t = true) :
    chat_request_temperature (.obj kvs) = .ok t
    ∧ proxy_request_temperature (.obj kvs) = .ok t := by
  constructor
  · have h1 : jlookup "temperature" (kvs.filter (fun p => p.1 != "options"))
        = some t := by
      rw [jlookup_filter_ne _ _ (by decide) kvs, hlk]
    have h2 : jlookup "temperature"
        ((kvs.filter (fun p => p.1 != "options")).filter (fun p => p.1 != "format"))
        = some t := by
      rw [jlookup_filter_ne _ _ (by decide), h1]
    simp only [chat_request_temperature]
    rw [h2]
    simp [htr]
  · simp [proxy_request_temperature, dictGet, hlk, htr, Bind.bind, Except.bind,
      Pure.pure, Except.pure]

/-- C6 witness: the amended theorem applied at
`\x7b"temperature": 2, "options": \x7b"temperature": 1\x7d\x7d`. -/
theorem C6_witness :
    chat_request_temperature
        (.obj [("temperature", .num 2), ("options", .obj [("temperature", .num 1)])])
      = .ok (.num 2)
    ∧ proxy_request_temperature
        (.obj [("temperature", .num 2), ("options", .obj [("temperature", .num 1)])])
      = .ok (.num 2) :=
  C6_truthy_temperature_wins _ (.num 2) rfl rfl

/-! ## Claim C7 -/

/-- A request body whose single line starts with the default delimiter
`stringValue:` followed by a JSON object. -/
def markedBody : List Char :=
  ("stringValue:\x7b\"model\":\"m\"\x7d").data

/-- C7 counterexample: the claim states that the generic proxy handler
recovers the request payload with an *empty* delimiter, stripping nothing.
The embedded handler call (app.py:172) uses the default delimiter
`stringValue:`: on `markedBody` it strips the marker and recovers
`\x7b"model": "m"\x7d`, while the empty-delimiter parse recovers `\x7b\x7d`
— the two disagree. -/
theorem C7_counterexample :
    dumbProxyReqData markedBody = .obj [("model", .str "m")]
    ∧ extract_last_json_from_blob markedBody [] = .obj []
    ∧ dumbProxyReqData markedBody ≠ extract_last_json_from_blob markedBody [] :=
  ⟨rfl, rfl, fun h => List.noConfusion (JVal.obj.inj h)⟩

/-- On lines free of the delimiter, the reverse scan behaves as with the
empty delimiter. -/
theorem lastJsonScan_of_no_marker (pfx : List Char) (lns : List (List Char))
    (h : ∀ ln ∈ lns, containsSub ln pfx = false) :
    lastJsonScan pfx lns = lastJsonScan [] lns := by
  induction lns with
  | nil => rfl
  | cons hd tl ih =>
    have hhd : containsSub hd pfx = false := h hd (by simp)
    have htl : ∀ ln ∈ tl, containsSub ln pfx = false :=
      fun ln hln => h ln (by simp [hln])
    simp only [lastJsonScan, lineCandidate, hhd, List.isEmpty_nil, Bool.not_true,
      Bool.and_false, Bool.false_and, if_neg Bool.false_ne_true, ih htl]

/-- C7 (amended): the generic proxy handler recovers the request payload
with `parse_last_json` under the *default* delimiter `stringValue:`; this
agrees with the empty-delimiter parse exactly when no scanned request-body
line contains that substring, and on lines containing it the part up to and
including the first `stringValue:` is stripped before decoding. -/
theorem C7_marker_free_body (body : List Char)
    (h : (blobScanLines body).all (fun ln => !containsSub ln stringValueMarker) = true) :
    dumbProxyReqData body = extract_last_json_from_blob body [] := by
  unfold dumbProxyReqData extract_last_json_from_blob
  by_cases hb : body.isEmpty
  · simp [hb]
  · simp only [hb, if_false]
    refine lastJsonScan_of_no_marker _ _ (fun ln hln => ?_)
    have := List.all_eq_true.mp h ln (List.mem_reverse.mp hln)
    simpa using this

/-- C7 witness: the amended theorem applied at the marker-free body
`\x7b"a":1\x7d`. -/
theorem C7_witness :
    dumbProxyReqData ("\x7b\"a\":1\x7d").data
      = extract_last_json_from_blob ("\x7b\"a\":1\x7d").data [] :=
  C7_marker_free_body _ rfl

/-! ## Claim C8 -/

/-- A line that strictly parses to a native-dialect assistant event
contributes exactly its content as a fragment (empty-delimiter run). -/
theorem aggLinePiece_native (ln : List Char) (c : String)
    (h : json_parse ln = some (nativeEvent c)) :
    aggLinePiece [] ln = .ok (some (.str c)) := by
  simp [aggLinePiece, lineCandidate, safe_json_loads, h, nativeEvent, truthy_obj,
    dictGet, jlookup, isAssistant, Bind.bind, Except.bind, Pure.pure, Except.pure]

/-- Over a run of native-dialect lines the accumulated fragments are
exactly the contents, in line order. -/
theorem aggPieces_native (lns : List (List Char)) (cs : List String)
    (h : List.Forall₂ (fun ln c => json_parse ln = some (nativeEvent c)) lns cs) :
    aggPieces [] lns = .ok (cs.map JVal.str) := by
  induction h with
  | nil => rfl
  | cons hrel _ ih =>
    simp [aggPieces, aggLinePiece_native _ _ hrel, ih, Bind.bind, Except.bind,
      Pure.pure, Except.pure]

/-- Joining string fragments concatenates them with no separator. -/
theorem joinPieces_strs (cs : List String) :
    joinPieces (cs.map JVal.str) = .ok (strConcat cs) := by
  induction cs with
  | nil => rfl
  | cons hd tl ih =>
    simp [joinPieces, strConcat, ih, Bind.bind, Except.bind, Pure.pure, Except.pure]

/-- C8: on every blob whose non-empty (stripped) lines are all well-formed
native-dialect events `\x7b"message": \x7b"role": "assistant", "content":
c_i\x7d\x7d` with string contents, `aggregate_completion` returns the
concatenation `c_1 ++ c_2 ++ ...` of the contents in line (emission) order,
with no separator. -/
theorem C8_native_concatenation (blob : List Char) (cs : List String)
    (h : List.Forall₂ (fun ln c => json_parse ln = some (nativeEvent c))
      (strippedLines blob) cs) :
    aggregate_completion_from_stream blob [] = .ok (strConcat cs) := by
  unfold aggregate_completion_from_stream
  by_cases hb : blob.isEmpty
  · have hnil : strippedLines blob = [] := by
      cases blob with
      | nil => rfl
      | cons hd tl => exact absurd hb (by simp)
    rw [hnil] at h
    cases h
    simp [hb, strConcat]
  · simp [hb, aggPieces_native _ _ h, joinPieces_strs, Bind.bind, Except.bind]

/-- C8 witness: the theorem applied at a two-line native stream with
contents `"foo"` and `"bar"`. -/
theorem C8_witness :
    aggregate_completion_from_stream
        (("\x7b\"message\":\x7b\"role\":\"assistant\",\"content\":\"foo\"\x7d\x7d\n"
          ++ "\x7b\"message\":\x7b\"role\":\"assistant\",\"content\":\"bar\"\x7d\x7d").data) []
      = .ok "foobar" :=
  C8_native_concatenation _ ["foo", "bar"]
    (List.Forall₂.cons rfl (List.Forall₂.cons rfl List.Forall₂.nil))

/-! ## Claim C9 -/

/-- C9: for every backend response, the generic proxy handler returns the
body bytes and status code unchanged, and a header survives exactly when it
was a backend header whose name, lower-cased, is neither
`content-encoding` nor `transfer-encoding` (so those two are removed under
case-insensitive matching, e.g. `Content-Encoding: gzip`); surviving
headers are kept verbatim and in order. -/
theorem C9_response_passthrough (r : BackendResponse) :
    (dumbProxyResponse r).content = r.content
    ∧ (dumbProxyResponse r).status_code = r.status_code
    ∧ (∀ kv : String × String, kv ∈ (dumbProxyResponse r).headers ↔
        kv ∈ r.headers ∧ kv.1.toLower ≠ "content-encoding"
          ∧ kv.1.toLower ≠ "transfer-encoding")
    ∧ (dumbProxyResponse r).headers.Sublist r.headers := by
  refine ⟨rfl, rfl, fun kv => ?_, List.filter_sublist _⟩
  simp [dumbProxyResponse, sanitizeHeaders, List.mem_filter, and_assoc]

/-! ## Claim C10 -/

/-- C10: on every payload whose `usage` value is a non-empty mapping
lacking all of `prompt_tokens`, `completion_tokens` and `total_tokens`,
`usage_facts` returns `(None, None, None)` — even when the native-dialect
fields `prompt_eval_count` / `eval_count` are also present: a non-empty
`usage` object always shadows the native-dialect fallback. -/
theorem C10_nonempty_usage_shadows (kvs ukvs : List (String × JVal))
    (hu : jlookup "usage" kvs = some (.obj ukvs))
    (hne : ukvs.isEmpty = false)
    (hp : jlookup "prompt_tokens" ukvs = none)
    (hc : jlookup "completion_tokens" ukvs = none)
    (ht : jlookup "total_tokens" ukvs = none) :
    extract_usage_from_data (.obj kvs) = .ok (.null, .null, .null) := by
  simp [extract_usage_from_data, truthy_obj, jlookup_ne_nil hu, hu, hne, hp, hc, ht,
    dictGet, Bind.bind, Except.bind, Pure.pure, Except.pure]

/-- C10 witness: the theorem applied at `\x7b"usage": \x7b"mode": 1\x7d,
"prompt_eval_count": 10, "eval_count": 5\x7d` — the native counts are
present yet shadowed. -/
theorem C10_witness :
    extract_usage_from_data
        (.obj [("usage", .obj [("mode", .num 1)]),
               ("prompt_eval_count", .num 10), ("eval_count", .num 5)])
      = .ok (.null, .null, .null) :=
  C10_nonempty_usage_shadows _ [("mode", .num 1)] rfl rfl rfl rfl rfl
